import Mathlib
/-!
Verification of the navigation and task-coordination core of subiquity
(`subiquitycore/tui.py` and the `SingleInstanceTask` helper).

The Python code is shallowly embedded: the mutable `TuiApplication` state
(`controllers.index`, `cur_screen`, the exit flag) becomes an explicit
`TuiState` record threaded through pure functions; exceptions become
explicit result constructors; the `while True` loop of `_move_screen`
becomes fuel-indexed recursion (the loop genuinely diverges for
`increment = 0` on an all-skipping list, so fuel is faithful); the
asyncio timing behaviour of `_wait_with_indication` is modelled on a
discrete millisecond clock.
-/

/-- Outcome of a controller's `make_ui` call, as observed by
`make_view_for_controller`: a view, a `Skip` exception, or some other
exception (identified by a numeric code). -/
inductive ViewOutcome where
  | view (v : Nat)
  | skip
  | err (e : Nat)
deriving DecidableEq, Repr

/-- A controller (one stage of the wizard): its name and what its
`make_ui` does when invoked. -/
structure Controller where
  name : Nat
  outcome : ViewOutcome
deriving DecidableEq, Repr

/-- Observable side effects of `make_view_for_controller` and
`_move_screen` on controller contexts (`context.enter`,
`context.exit("(skipped)")`, `context.exit("completed")`, `end_ui`). -/
inductive Event where
  | ctxEnter (name : Nat)
  | ctxExitSkipped (name : Nat)
  | ctxExitCompleted (name : Nat)
  | endUi (name : Nat)
deriving DecidableEq, Repr

/-- The slice of `opts` that `make_view_for_controller` reads:
`opts.screens` (an empty list is falsy in Python, meaning no filter). -/
structure Opts where
  screens : List Nat
deriving DecidableEq, Repr

/-- The mutable state of `TuiApplication` touched by `_move_screen`:
`controllers.index`, `controllers.instances`, `cur_screen`, whether
`self.exit()` has been called, and the log of context/UI events. -/
structure TuiState where
  index : Int
  instances : List Controller
  curScreen : Option Controller
  exited : Bool
  log : List Event
deriving DecidableEq, Repr

/-- Result of `make_view_for_controller`: returned a view, raised
`Skip`, or raised another exception. -/
inductive MVOut where
  | ok (v : Nat)
  | skipped
  | exn (e : Nat)
deriving DecidableEq, Repr

/-- `TuiApplication.make_view_for_controller` (tui.py:126-143).
Enters the controller's context; raises `Skip` when `opts.screens` is
non-empty and excludes the controller's name; otherwise runs `make_ui`:
a `Skip` from it exits the context "(skipped)" and re-raises, any other
exception propagates untouched, and on success `cur_screen` is set to
the controller and the view returned. -/
def make_view_for_controller (opts : Opts) (s : TuiState) (new : Controller) :
    TuiState × MVOut :=
  if opts.screens ≠ [] ∧ new.name ∉ opts.screens then
    ({ s with log := s.log ++ [Event.ctxEnter new.name] }, MVOut.skipped)
  else
    match new.outcome with
    | ViewOutcome.skip =>
        ({ s with
            log := s.log ++ [Event.ctxEnter new.name, Event.ctxExitSkipped new.name] },
         MVOut.skipped)
    | ViewOutcome.err e =>
        ({ s with log := s.log ++ [Event.ctxEnter new.name] }, MVOut.exn e)
    | ViewOutcome.view v =>
        ({ s with log := s.log ++ [Event.ctxEnter new.name], curScreen := some new },
         MVOut.ok v)

/-- Result of one `_move_screen` call: a view was returned, `None` was
returned (either "no move" or "finished", distinguished by the
`exited` flag of the final state), or an exception propagated. -/
inductive MoveResult where
  | view (v : Nat)
  | nothing
  | raised (e : Nat)
deriving DecidableEq, Repr

/-- The `while True` loop of `_move_screen` (tui.py:225-241), with
`cur_index` the saved origin. Fuel-indexed: `none` means the fuel ran
out (or the guarded list access failed, which the bounds checks make
unreachable). Each iteration adds `increment` to the index, returns
"no move" (restoring the origin) below 0, calls `self.exit()` and
returns past the end, and otherwise builds the view for the current
controller: `Skip` continues the loop, success returns the view, and
any other exception restores the origin index and re-raises. -/
def moveLoop (opts : Opts) (increment : Int) (cur_index : Int)
    (fuel : Nat) (s : TuiState) : Option (TuiState × MoveResult) :=
  match fuel with
  | 0 => none
  | fuel + 1 =>
    if s.index + increment < 0 then
      some ({ s with index := cur_index }, MoveResult.nothing)
    else if (s.instances.length : Int) ≤ s.index + increment then
      some ({ s with index := s.index + increment, exited := true },
            MoveResult.nothing)
    else
      match s.instances.get? (s.index + increment).toNat with
      | none => none
      | some new =>
        match make_view_for_controller opts { s with index := s.index + increment } new with
        | (s2, MVOut.ok v) => some (s2, MoveResult.view v)
        | (s2, MVOut.skipped) => moveLoop opts increment cur_index fuel s2
        | (s2, MVOut.exn e) =>
            some ({ s2 with index := cur_index }, MoveResult.raised e)

/-- The events `_move_screen` emits when leaving the current screen:
`old.context.exit("completed")` then `old.end_ui()` when there is one. -/
def departureEvents : Option Controller → List Event
  | none => []
  | some c => [Event.ctxExitCompleted c.name, Event.endUi c.name]

/-- `TuiApplication._move_screen` (tui.py:215-241). The pretransition
`coro` is `none` (not supplied), `some (Except.ok ())` (supplied,
succeeds) or `some (Except.error e)` (supplied, raises `e`). When it
raises, nothing else happens. Otherwise `cur_screen` is cleared, the
old screen signalled completed, the origin recorded, and the loop run. -/
def move_screen (opts : Opts) (increment : Int) (coro : Option (Except Nat Unit))
    (fuel : Nat) (s : TuiState) : Option (TuiState × MoveResult) :=
  match coro with
  | some (Except.error e) => some (s, MoveResult.raised e)
  | _ =>
    moveLoop opts increment s.index fuel
      { s with curScreen := none, log := s.log ++ departureEvents s.curScreen }

/-- `MAX_BLOCK_TIME` (tui.py:60), 0.1 s, on a millisecond clock. -/
def MAX_BLOCK_TIME : Nat := 100

/-- `MIN_SHOW_PROGRESS_TIME` (tui.py:63), 1.0 s, on a millisecond clock. -/
def MIN_SHOW_PROGRESS_TIME : Nat := 1000

/-- How the awaited operation of `_wait_with_indication` ends: a
result, an exception, or cancellation. -/
inductive AwaitOutcome where
  | ok (v : Nat)
  | err (e : Nat)
  | cancelled
deriving DecidableEq, Repr

/-- The observable history of one `_wait_with_indication` call:
when `show`/`hide` were invoked (if at all), the value of
`ui.block_input` at entry and at completion, the instant it was set
back to `False`, the instant the call completes, and what it
returns/propagates. -/
structure WaitTrace where
  showTime : Option Nat
  hideTime : Option Nat
  blockInputOnEntry : Bool
  blockInputOnExit : Bool
  unblockTime : Nat
  returnTime : Nat
  outcome : AwaitOutcome
deriving DecidableEq, Repr

/-- `TuiApplication._wait_with_indication` (tui.py:145-176) on a
discrete millisecond clock starting at 0 when the call begins; `T` is
the instant the awaited operation completes (with outcome `o`) and
`hasHide` whether a `hide` callback was supplied; callbacks are
treated as instantaneous.

The code sets `ui.block_input = True`, spawns `_show` (which sleeps
`MAX_BLOCK_TIME`, clears `block_input`, starts the
`MIN_SHOW_PROGRESS_TIME` sleep and invokes `show`), and awaits the
operation. In the `finally`: if `min_show_task` was started (the
operation outlived `MAX_BLOCK_TIME`), it awaits that sleep — which
ends `MIN_SHOW_PROGRESS_TIME` after first display — then invokes
`hide` when supplied; otherwise it clears `block_input` and cancels
the never-shown `_show` task. Only then does the result or exception
reach the caller. -/
def wait_with_indication (T : Nat) (o : AwaitOutcome) (hasHide : Bool) :
    WaitTrace :=
  if T ≤ MAX_BLOCK_TIME then
    { showTime := none, hideTime := none,
      blockInputOnEntry := true, blockInputOnExit := false,
      unblockTime := T, returnTime := T, outcome := o }
  else
    { showTime := some MAX_BLOCK_TIME,
      hideTime := if hasHide then
          some (max T (MAX_BLOCK_TIME + MIN_SHOW_PROGRESS_TIME)) else none,
      blockInputOnEntry := true, blockInputOnExit := false,
      unblockTime := MAX_BLOCK_TIME,
      returnTime := max T (MAX_BLOCK_TIME + MIN_SHOW_PROGRESS_TIME),
      outcome := o }

/-- The error `SingleInstanceTask.start` raises under the reject
policy when a task is already running (named `TaskAlreadyRunningError`
in the tests). -/
inductive AlreadyRunningError where
  | mk
deriving DecidableEq, Repr

/-- Whether the wrapped task of a `SingleInstanceTask` has ever been
started and, if so, where it stands. -/
inductive TaskState where
  | idle
  | running
  | completed
  | cancelled
  | failed
deriving DecidableEq, Repr

/-- Modelled from the spec: the implementation of `SingleInstanceTask`
(subiquitycore/async_helpers.py) is not under src/ — only its tests
are — so its state is modelled from the spec's words: it "wraps a
zero-argument async factory" with a restart policy (the test's
`cancel_restart` flag), and we track how often the factory has been
invoked and how many prior tasks were cancelled. -/
structure SingleInstanceTask where
  cancelRestart : Bool
  callCount : Nat
  state : TaskState
  cancelCount : Nat
deriving DecidableEq, Repr

/-- Modelled from the spec: `SingleInstanceTask.start()` — "if idle,
launches a new task and returns immediately"; "if already running:
under `RejectIfRunning`, fails with `AlreadyRunningError`, leaving the
running task untouched; under `CancelAndRestart`, best-effort-cancels
the running task and immediately starts a new one". Launching a task
invokes the factory once. -/
def SingleInstanceTask.start (sit : SingleInstanceTask) :
    Except AlreadyRunningError SingleInstanceTask :=
  match sit.state with
  | TaskState.running =>
    if sit.cancelRestart then
      Except.ok { sit with callCount := sit.callCount + 1,
                           cancelCount := sit.cancelCount + 1,
                           state := TaskState.running }
    else
      Except.error AlreadyRunningError.mk
  | _ =>
    Except.ok { sit with callCount := sit.callCount + 1,
                         state := TaskState.running }

theorem moveLoop_zero (opts : Opts) (increment cur_index : Int) (s : TuiState) :
    moveLoop opts increment cur_index 0 s = none := rfl

theorem moveLoop_succ (opts : Opts) (increment cur_index : Int) (fuel : Nat)
    (s : TuiState) :
    moveLoop opts increment cur_index (fuel + 1) s =
      if s.index + increment < 0 then
        some ({ s with index := cur_index }, MoveResult.nothing)
      else if (s.instances.length : Int) ≤ s.index + increment then
        some ({ s with index := s.index + increment, exited := true },
              MoveResult.nothing)
      else
        match s.instances.get? (s.index + increment).toNat with
        | none => none
        | some new =>
          match make_view_for_controller opts { s with index := s.index + increment } new with
          | (s2, MVOut.ok v) => some (s2, MoveResult.view v)
          | (s2, MVOut.skipped) => moveLoop opts increment cur_index fuel s2
          | (s2, MVOut.exn e) =>
              some ({ s2 with index := cur_index }, MoveResult.raised e) := rfl

/-- In the loop, whenever an exception result comes out, the final
index is the saved origin. -/
theorem moveLoop_raised_index (opts : Opts) (increment cur_index : Int) :
    ∀ (fuel : Nat) (s s2 : TuiState) (e : Nat),
      moveLoop opts increment cur_index fuel s = some (s2, MoveResult.raised e) →
      s2.index = cur_index := by
  intro fuel
  induction fuel with
  | zero =>
    intro s s2 e h
    simp [moveLoop] at h
  | succ n ih =>
    intro s s2 e h
    rw [moveLoop_succ] at h
    split at h
    · simp at h
    · split at h
      · simp at h
      · split at h
        · simp at h
        · split at h
          · simp at h
          · exact ih _ _ _ h
          · rw [Option.some_inj, Prod.mk.injEq] at h
            obtain ⟨h1, -⟩ := h
            rw [← h1]

/-- A `Skip` outcome of view construction leaves `cur_screen` as it was. -/
theorem make_view_skipped_curScreen (opts : Opts) (s : TuiState)
    (new : Controller) (s2 : TuiState)
    (h : make_view_for_controller opts s new = (s2, MVOut.skipped)) :
    s2.curScreen = s.curScreen := by
  unfold make_view_for_controller at h
  split at h
  · cases h; rfl
  · split at h
    · cases h; rfl
    · simp at h
    · simp at h

/-- A non-Skip exception from view construction leaves `cur_screen` as
it was. -/
theorem make_view_exn_curScreen (opts : Opts) (s : TuiState)
    (new : Controller) (s2 : TuiState) (e : Nat)
    (h : make_view_for_controller opts s new = (s2, MVOut.exn e)) :
    s2.curScreen = s.curScreen := by
  unfold make_view_for_controller at h
  split at h
  · simp at h
  · split at h
    · simp at h
    · cases h; rfl
    · simp at h

/-- View construction only appends to the event log. -/
theorem make_view_log_mem (opts : Opts) (s : TuiState) (new : Controller)
    (s2 : TuiState) (r : MVOut) (x : Event)
    (h : make_view_for_controller opts s new = (s2, r)) (hx : x ∈ s.log) :
    x ∈ s2.log := by
  unfold make_view_for_controller at h
  split at h
  · cases h; exact List.mem_append_left _ hx
  · split at h <;> (cases h; exact List.mem_append_left _ hx)

/-- If the loop starts with `cur_screen` cleared, every result other
than a returned view leaves `cur_screen` cleared. -/
theorem moveLoop_curScreen_none (opts : Opts) (increment cur_index : Int) :
    ∀ (fuel : Nat) (s s2 : TuiState) (r : MoveResult),
      s.curScreen = none →
      moveLoop opts increment cur_index fuel s = some (s2, r) →
      (∀ v, r ≠ MoveResult.view v) →
      s2.curScreen = none := by
  intro fuel
  induction fuel with
  | zero =>
    intro s s2 r hcs h hr
    simp [moveLoop] at h
  | succ n ih =>
    intro s s2 r hcs h hr
    rw [moveLoop_succ] at h
    split at h
    · rw [Option.some_inj, Prod.mk.injEq] at h
      obtain ⟨h1, -⟩ := h
      rw [← h1]
      exact hcs
    · split at h
      · rw [Option.some_inj, Prod.mk.injEq] at h
        obtain ⟨h1, -⟩ := h
        rw [← h1]
        exact hcs
      · split at h
        · simp at h
        · split at h
          · rw [Option.some_inj, Prod.mk.injEq] at h
            obtain ⟨h1, h2⟩ := h
            exact absurd h2.symm (hr _)
          · rename_i s2x hmv
            exact ih _ _ _ (by rw [make_view_skipped_curScreen _ _ _ _ hmv]; exact hcs) h hr
          · rename_i s2x e hmv
            rw [Option.some_inj, Prod.mk.injEq] at h
            obtain ⟨h1, -⟩ := h
            rw [← h1]
            show s2x.curScreen = none
            rw [make_view_exn_curScreen _ _ _ _ _ hmv]
            exact hcs

/-- The loop only appends to the event log. -/
theorem moveLoop_log_mem (opts : Opts) (increment cur_index : Int) :
    ∀ (fuel : Nat) (s s2 : TuiState) (r : MoveResult) (x : Event),
      x ∈ s.log →
      moveLoop opts increment cur_index fuel s = some (s2, r) →
      x ∈ s2.log := by
  intro fuel
  induction fuel with
  | zero =>
    intro s s2 r x hx h
    simp [moveLoop] at h
  | succ n ih =>
    intro s s2 r x hx h
    rw [moveLoop_succ] at h
    split at h
    · rw [Option.some_inj, Prod.mk.injEq] at h
      obtain ⟨h1, -⟩ := h
      rw [← h1]
      exact hx
    · split at h
      · rw [Option.some_inj, Prod.mk.injEq] at h
        obtain ⟨h1, -⟩ := h
        rw [← h1]
        exact hx
      · split at h
        · simp at h
        · split at h
          · rename_i s2x v hmv
            rw [Option.some_inj, Prod.mk.injEq] at h
            obtain ⟨h1, -⟩ := h
            rw [← h1]
            exact make_view_log_mem _ _ _ _ _ _ hmv hx
          · rename_i s2x hmv
            exact ih _ _ _ _ (make_view_log_mem _ _ _ _ _ _ hmv hx) h
          · rename_i s2x e hmv
            rw [Option.some_inj, Prod.mk.injEq] at h
            obtain ⟨h1, -⟩ := h
            rw [← h1]
            show x ∈ s2x.log
            exact make_view_log_mem _ _ _ _ _ _ hmv hx

/-- C1: whenever `_move_screen` ends by re-raising a non-Skip exception
from view construction, the cursor (`controllers.index`) is back at the
value it had when the move began, so the engine never leaves the cursor
pointing at a stage whose view failed to build (the exception is the
result itself, so it reaches the caller). -/
theorem c1_raise_restores_cursor (opts : Opts) (increment : Int)
    (coro : Option (Except Nat Unit)) (fuel : Nat) (s s2 : TuiState) (e : Nat)
    (h : move_screen opts increment coro fuel s = some (s2, MoveResult.raised e)) :
    s2.index = s.index := by
  cases coro with
  | none => exact moveLoop_raised_index opts increment s.index fuel _ s2 e h
  | some x =>
    cases x with
    | ok u => exact moveLoop_raised_index opts increment s.index fuel _ s2 e h
    | error a =>
      rw [show move_screen opts increment (some (Except.error a)) fuel s
            = some (s, MoveResult.raised a) from rfl] at h
      rw [Option.some_inj, Prod.mk.injEq] at h
      obtain ⟨h1, -⟩ := h
      rw [← h1]

/-- Witness for C1: moving forward from stage B (index 0) onto stage C
whose construction raises error 3 leaves the cursor at B's index. -/
theorem c1_witness :
    ({ index := 0,
       instances := [⟨1, ViewOutcome.view 10⟩, ⟨2, ViewOutcome.err 3⟩],
       curScreen := none, exited := false,
       log := [Event.ctxExitCompleted 1, Event.endUi 1, Event.ctxEnter 2] } : TuiState).index
    = ({ index := 0,
         instances := [⟨1, ViewOutcome.view 10⟩, ⟨2, ViewOutcome.err 3⟩],
         curScreen := some ⟨1, ViewOutcome.view 10⟩, exited := false,
         log := [] } : TuiState).index :=
  c1_raise_restores_cursor ⟨[]⟩ 1 none 5 _ _ 3 (by decide)

/-- C2: a `Skip` raised while building the view for the stage at the
cursor makes the loop continue with the same delta and the same saved
origin, never counting as a failure; in particular with stages
`[A(skip), B, C]` a forward move from before A settles on B (cursor 1)
and returns B's view. -/
theorem c2_skip_continues_loop (opts : Opts) (increment cur_index : Int)
    (fuel : Nat) (s : TuiState) (new : Controller) (s2 : TuiState)
    (h0 : ¬s.index + increment < 0)
    (h1 : ¬(s.instances.length : Int) ≤ s.index + increment)
    (hget : s.instances.get? (s.index + increment).toNat = some new)
    (hmv : make_view_for_controller opts { s with index := s.index + increment } new
           = (s2, MVOut.skipped)) :
    moveLoop opts increment cur_index (fuel + 1) s =
      moveLoop opts increment cur_index fuel s2
    ∧ move_screen ⟨[]⟩ 1 none 4
        ⟨-1, [⟨1, ViewOutcome.skip⟩, ⟨2, ViewOutcome.view 20⟩, ⟨3, ViewOutcome.view 30⟩],
         none, false, []⟩
      = some (⟨1, [⟨1, ViewOutcome.skip⟩, ⟨2, ViewOutcome.view 20⟩, ⟨3, ViewOutcome.view 30⟩],
               some ⟨2, ViewOutcome.view 20⟩, false,
               [Event.ctxEnter 1, Event.ctxExitSkipped 1, Event.ctxEnter 2]⟩,
              MoveResult.view 20) := by
  constructor
  · simp only [moveLoop_succ, if_neg h0, if_neg h1, hget, hmv]
  · decide

/-- Witness for C2: the skipping stage A of `[A(skip), B, C]` makes the
loop continue with delta 1 and origin -1 from the advanced state. -/
theorem c2_witness :
    moveLoop ⟨[]⟩ 1 (-1) 4
      ⟨-1, [⟨1, ViewOutcome.skip⟩, ⟨2, ViewOutcome.view 20⟩, ⟨3, ViewOutcome.view 30⟩],
       none, false, []⟩
    = moveLoop ⟨[]⟩ 1 (-1) 3
      ⟨0, [⟨1, ViewOutcome.skip⟩, ⟨2, ViewOutcome.view 20⟩, ⟨3, ViewOutcome.view 30⟩],
       none, false, [Event.ctxEnter 1, Event.ctxExitSkipped 1]⟩ :=
  (c2_skip_continues_loop ⟨[]⟩ 1 (-1) 3
    ⟨-1, [⟨1, ViewOutcome.skip⟩, ⟨2, ViewOutcome.view 20⟩, ⟨3, ViewOutcome.view 30⟩],
     none, false, []⟩
    ⟨1, ViewOutcome.skip⟩
    ⟨0, [⟨1, ViewOutcome.skip⟩, ⟨2, ViewOutcome.view 20⟩, ⟨3, ViewOutcome.view 30⟩],
     none, false, [Event.ctxEnter 1, Event.ctxExitSkipped 1]⟩
    (by decide) (by decide) (by decide) (by decide)).1

/-- C5: when the pretransition awaitable raises, `_move_screen`
propagates the exception with the state fully untouched: the cursor is
not mutated, `cur_screen` keeps the active screen, and no completion
signal or teardown event is emitted. -/
theorem c5_pretransition_failure_aborts (opts : Opts) (increment : Int)
    (e : Nat) (fuel : Nat) (s : TuiState) :
    move_screen opts increment (some (Except.error e)) fuel s
      = some (s, MoveResult.raised e) := rfl

/-- C6: when adding the delta takes the cursor to a position at or past
the number of stages, `_move_screen` calls `self.exit()` (the `exited`
flag) and returns the no-view result; the cursor parks past the end,
no exception is raised, and the log gains only the departure events —
no `ctxEnter`, so no view construction is ever attempted. -/
theorem c6_past_end_finishes (opts : Opts) (increment : Int)
    (coro : Option (Except Nat Unit)) (fuel : Nat) (s : TuiState)
    (hcoro : ∀ a, coro ≠ some (Except.error a))
    (h0 : ¬s.index + increment < 0)
    (h1 : (s.instances.length : Int) ≤ s.index + increment) :
    move_screen opts increment coro (fuel + 1) s =
      some ({ s with curScreen := none,
                     log := s.log ++ departureEvents s.curScreen,
                     index := s.index + increment, exited := true },
            MoveResult.nothing) := by
  have hred : move_screen opts increment coro (fuel + 1) s =
      moveLoop opts increment s.index (fuel + 1)
        { s with curScreen := none, log := s.log ++ departureEvents s.curScreen } := by
    cases coro with
    | none => rfl
    | some x =>
      cases x with
      | ok u => rfl
      | error a => exact absurd rfl (hcoro a)
  rw [hred, moveLoop_succ]
  simp only [if_neg h0]
  rw [if_pos h1]

/-- Witness for C6: moving forward from the last stage (index 1 of two
stages) exits and returns the no-view result with no view built. -/
theorem c6_witness :
    move_screen ⟨[]⟩ 1 none 5
      ⟨1, [⟨1, ViewOutcome.view 10⟩, ⟨2, ViewOutcome.view 20⟩],
       some ⟨2, ViewOutcome.view 20⟩, false, []⟩
    = some (⟨2, [⟨1, ViewOutcome.view 10⟩, ⟨2, ViewOutcome.view 20⟩],
             none, true, [Event.ctxExitCompleted 2, Event.endUi 2]⟩,
            MoveResult.nothing) :=
  c6_past_end_finishes ⟨[]⟩ 1 none 4
    ⟨1, [⟨1, ViewOutcome.view 10⟩, ⟨2, ViewOutcome.view 20⟩],
     some ⟨2, ViewOutcome.view 20⟩, false, []⟩
    (fun a h => Option.noConfusion h) (by decide) (by decide)

/-- C7: when adding the delta takes the cursor below 0, `_move_screen`
puts the cursor back at its value from the start of the move and
returns the no-view result: no exception, `exit` not called, and the
log gains only the departure events — no view is constructed. -/
theorem c7_before_start_no_move (opts : Opts) (increment : Int)
    (coro : Option (Except Nat Unit)) (fuel : Nat) (s : TuiState)
    (hcoro : ∀ a, coro ≠ some (Except.error a))
    (h0 : s.index + increment < 0) :
    move_screen opts increment coro (fuel + 1) s =
      some ({ s with curScreen := none,
                     log := s.log ++ departureEvents s.curScreen },
            MoveResult.nothing) := by
  have hred : move_screen opts increment coro (fuel + 1) s =
      moveLoop opts increment s.index (fuel + 1)
        { s with curScreen := none, log := s.log ++ departureEvents s.curScreen } := by
    cases coro with
    | none => rfl
    | some x =>
      cases x with
      | ok u => rfl
      | error a => exact absurd rfl (hcoro a)
  rw [hred, moveLoop_succ]
  simp only [if_pos h0]

/-- Witness for C7: moving backward from the first stage restores the
cursor to 0 and returns the no-view result. -/
theorem c7_witness :
    move_screen ⟨[]⟩ (-1) none 5
      ⟨0, [⟨1, ViewOutcome.view 10⟩, ⟨2, ViewOutcome.view 20⟩],
       some ⟨1, ViewOutcome.view 10⟩, false, []⟩
    = some (⟨0, [⟨1, ViewOutcome.view 10⟩, ⟨2, ViewOutcome.view 20⟩],
             none, false, [Event.ctxExitCompleted 1, Event.endUi 1]⟩,
            MoveResult.nothing) :=
  c7_before_start_no_move ⟨[]⟩ (-1) none 4
    ⟨0, [⟨1, ViewOutcome.view 10⟩, ⟨2, ViewOutcome.view 20⟩],
     some ⟨1, ViewOutcome.view 10⟩, false, []⟩
    (fun a h => Option.noConfusion h) (by decide)

/-- C9: after `_move_screen` returns the no-view result or re-raises a
construction error (any result other than a view, the pretransition not
having failed), `cur_screen` is `none`: the old screen was already
signalled completed (`context.exit("completed")` and `end_ui` are in
the log) and is not restored, even though the cursor may be. -/
theorem c9_failed_move_leaves_no_screen (opts : Opts) (increment : Int)
    (coro : Option (Except Nat Unit)) (fuel : Nat) (s s2 : TuiState)
    (r : MoveResult)
    (hcoro : ∀ a, coro ≠ some (Except.error a))
    (h : move_screen opts increment coro fuel s = some (s2, r))
    (hr : ∀ v, r ≠ MoveResult.view v) :
    s2.curScreen = none ∧
      ∀ c, s.curScreen = some c →
        Event.ctxExitCompleted c.name ∈ s2.log ∧ Event.endUi c.name ∈ s2.log := by
  have hml : moveLoop opts increment s.index fuel
      { s with curScreen := none, log := s.log ++ departureEvents s.curScreen }
      = some (s2, r) := by
    cases coro with
    | none => exact h
    | some x =>
      cases x with
      | ok u => exact h
      | error a => exact absurd rfl (hcoro a)
  refine ⟨moveLoop_curScreen_none opts increment s.index fuel _ s2 r rfl hml hr, ?_⟩
  intro c hc
  constructor
  · refine moveLoop_log_mem opts increment s.index fuel _ s2 r _ ?_ hml
    rw [hc]
    simp [departureEvents]
  · refine moveLoop_log_mem opts increment s.index fuel _ s2 r _ ?_ hml
    rw [hc]
    simp [departureEvents]

/-- Witness for C9: after backing out of the first stage, the old
screen's completion and teardown events are in the log (and, per the
first conjunct, `cur_screen` is `none`). -/
theorem c9_witness :
    Event.ctxExitCompleted 1 ∈
        (⟨0, [⟨1, ViewOutcome.view 10⟩, ⟨2, ViewOutcome.view 20⟩],
          none, false, [Event.ctxExitCompleted 1, Event.endUi 1]⟩ : TuiState).log
    ∧ Event.endUi 1 ∈
        (⟨0, [⟨1, ViewOutcome.view 10⟩, ⟨2, ViewOutcome.view 20⟩],
          none, false, [Event.ctxExitCompleted 1, Event.endUi 1]⟩ : TuiState).log :=
  (c9_failed_move_leaves_no_screen ⟨[]⟩ (-1) none 5
    ⟨0, [⟨1, ViewOutcome.view 10⟩, ⟨2, ViewOutcome.view 20⟩],
     some ⟨1, ViewOutcome.view 10⟩, false, []⟩
    ⟨0, [⟨1, ViewOutcome.view 10⟩, ⟨2, ViewOutcome.view 20⟩],
     none, false, [Event.ctxExitCompleted 1, Event.endUi 1]⟩
    MoveResult.nothing
    (fun a h => Option.noConfusion h) (by decide)
    (fun v h => MoveResult.noConfusion h)).2
    ⟨1, ViewOutcome.view 10⟩ rfl

/-- C3: once `show` has run, `hide` (when supplied) runs no earlier
than `MIN_SHOW_PROGRESS_TIME` after first display, and the operation's
outcome — result, exception or cancellation alike — reaches the caller
only after that bookkeeping (the call completes no earlier than `hide`
runs, and the outcome is propagated unchanged whether or not a `hide`
callback exists). -/
theorem c3_min_show_before_hide (T : Nat) (o : AwaitOutcome) :
    (∀ ts, (wait_with_indication T o true).showTime = some ts →
      ∃ th, (wait_with_indication T o true).hideTime = some th ∧
        ts + MIN_SHOW_PROGRESS_TIME ≤ th ∧
        th ≤ (wait_with_indication T o true).returnTime)
    ∧ (wait_with_indication T o true).outcome = o
    ∧ (wait_with_indication T o false).outcome = o := by
  unfold wait_with_indication
  by_cases hT : T ≤ MAX_BLOCK_TIME
  · rw [if_pos hT, if_pos hT]
    refine ⟨?_, rfl, rfl⟩
    intro ts hts
    simp at hts
  · rw [if_neg hT, if_neg hT]
    refine ⟨?_, rfl, rfl⟩
    intro ts hts
    rw [Option.some_inj] at hts
    refine ⟨max T (MAX_BLOCK_TIME + MIN_SHOW_PROGRESS_TIME), rfl, ?_, le_refl _⟩
    rw [← hts]
    exact le_max_right _ _

/-- Witness for C3: an operation failing at 2000 ms (shown at 100 ms)
has `hide` invoked at 2000 ms, at least 1000 ms after first display,
and the call completes no earlier. -/
theorem c3_witness :
    ∃ th, (wait_with_indication 2000 (AwaitOutcome.err 7) true).hideTime = some th ∧
      100 + MIN_SHOW_PROGRESS_TIME ≤ th ∧
      th ≤ (wait_with_indication 2000 (AwaitOutcome.err 7) true).returnTime :=
  (c3_min_show_before_hide 2000 (AwaitOutcome.err 7)).1 100 (by decide)

/-- C4: an operation that completes (with any outcome) strictly before
`MAX_BLOCK_TIME` never has `show` or `hide` invoked; conversely `show`
is invoked only when the operation has not completed within
`MAX_BLOCK_TIME`. -/
theorem c4_fast_operation_no_indicator (T : Nat) (o : AwaitOutcome)
    (hasHide : Bool) :
    (T < MAX_BLOCK_TIME →
      (wait_with_indication T o hasHide).showTime = none ∧
      (wait_with_indication T o hasHide).hideTime = none)
    ∧ (∀ ts, (wait_with_indication T o hasHide).showTime = some ts →
        MAX_BLOCK_TIME < T) := by
  unfold wait_with_indication
  by_cases hT : T ≤ MAX_BLOCK_TIME
  · rw [if_pos hT]
    exact ⟨fun _ => ⟨rfl, rfl⟩, fun ts hts => by simp at hts⟩
  · rw [if_neg hT]
    exact ⟨fun hlt => absurd (le_of_lt hlt) hT, fun ts _ => lt_of_not_le hT⟩

/-- Witness for C4: an operation succeeding at 50 ms shows no
indicator and invokes no `hide`. -/
theorem c4_witness :
    (wait_with_indication 50 (AwaitOutcome.ok 1) true).showTime = none ∧
    (wait_with_indication 50 (AwaitOutcome.ok 1) true).hideTime = none :=
  (c4_fast_operation_no_indicator 50 (AwaitOutcome.ok 1) true).1 (by decide)

/-- C10: `_wait_with_indication` sets `ui.block_input` to `True` on
entry; on every exit path — result, exception or cancellation — it is
`False` again by the time the call completes, cleared no later than
completion: at `MAX_BLOCK_TIME` when the indicator is about to be
shown, and in the cleanup branch at the instant the operation finished
when the indicator was never shown. -/
theorem c10_block_input_cleared (T : Nat) (o : AwaitOutcome)
    (hasHide : Bool) :
    (wait_with_indication T o hasHide).blockInputOnEntry = true
    ∧ (wait_with_indication T o hasHide).blockInputOnExit = false
    ∧ (wait_with_indication T o hasHide).unblockTime ≤
        (wait_with_indication T o hasHide).returnTime
    ∧ (∀ ts, (wait_with_indication T o hasHide).showTime = some ts →
        (wait_with_indication T o hasHide).unblockTime = MAX_BLOCK_TIME)
    ∧ ((wait_with_indication T o hasHide).showTime = none →
        (wait_with_indication T o hasHide).unblockTime = T) := by
  unfold wait_with_indication
  by_cases hT : T ≤ MAX_BLOCK_TIME
  · rw [if_pos hT]
    exact ⟨rfl, rfl, le_refl _, fun ts hts => by simp at hts, fun _ => rfl⟩
  · rw [if_neg hT]
    refine ⟨rfl, rfl, ?_, fun ts _ => rfl, fun hnone => by simp at hnone⟩
    exact le_trans (Nat.le_add_right _ _) (le_max_right _ _)

/-- Witness for C10: an operation cancelled at 500 ms (after the
indicator appeared at 100 ms) still ends with input unblocked, input
having been unblocked at `MAX_BLOCK_TIME`. -/
theorem c10_witness :
    (wait_with_indication 500 AwaitOutcome.cancelled false).blockInputOnEntry = true
    ∧ (wait_with_indication 500 AwaitOutcome.cancelled false).blockInputOnExit = false :=
  ⟨(c10_block_input_cleared 500 AwaitOutcome.cancelled false).1,
   (c10_block_input_cleared 500 AwaitOutcome.cancelled false).2.1⟩

/-- C8: a second `start()` on a still-running `SingleInstanceTask`
follows the restart policy: with `cancel_restart = false`
(RejectIfRunning) it raises `AlreadyRunningError` — no new state, so
the running task is untouched and the factory was invoked exactly once
across both calls — while with `cancel_restart = true`
(CancelAndRestart) it cancels the running task (one cancellation
recorded) and the factory has been invoked exactly twice. -/
theorem c8_second_start_policy :
    SingleInstanceTask.start ⟨false, 0, TaskState.idle, 0⟩
      = Except.ok ⟨false, 1, TaskState.running, 0⟩
    ∧ SingleInstanceTask.start ⟨false, 1, TaskState.running, 0⟩
      = Except.error AlreadyRunningError.mk
    ∧ SingleInstanceTask.start ⟨true, 0, TaskState.idle, 0⟩
      = Except.ok ⟨true, 1, TaskState.running, 0⟩
    ∧ SingleInstanceTask.start ⟨true, 1, TaskState.running, 0⟩
      = Except.ok ⟨true, 2, TaskState.running, 1⟩ :=
  ⟨rfl, rfl, rfl, rfl⟩
